import Mathlib

/-
Shallow embedding of openinsight-proj/etcd-metrics-proxy (src/metrics_proxy.go).

The program is a reverse proxy for etcd metrics with live TLS credential
reload.  We embed the pure decision logic of the Go source:

* `config`, `initFlags`/`resolveFlags`, `validateFlags` — flag handling;
* `buildHTTPSTransport`, `loadX509KeyPair` — transport construction;
* `performReload` — the debounced reload body, modelled as a pure function
  from the filesystem snapshot and the current transport-holder state to the
  new holder state plus an ordered list of side effects;
* `mainStartup` — the startup path of `main` after `flag.Parse`;
* the watcher's event filter (`baseByDir` index, `fsnotify.Op` switch) and
  the debounce timer (`scheduleReload`), modelled as a timed trace semantics.

Library behaviour outside the repository (PEM parsing, X.509 key pair
loading, file reads) is abstracted by a `CryptoModel` and a `FileSystem`
record of functions; the repository's own code is translated faithfully.
-/

namespace EtcdMetricsProxy

/-- Go struct `config` (metrics_proxy.go lines 20–28). -/
structure config where
  port : Nat
  upstreamHost : String
  upstreamPort : Nat
  upstreamServerName : String
  etcdCA : String
  etcdCert : String
  etcdKey : String
deriving DecidableEq, Repr

/-- Command-line input: for each flag, `none` means the flag was omitted. -/
structure FlagArgs where
  port : Option Nat
  upstreamHost : Option String
  upstreamPort : Option Nat
  upstreamServerName : Option String
  etcdCA : Option String
  etcdCert : Option String
  etcdKey : Option String
deriving DecidableEq, Repr

/-- Models `initFlags` (lines 30–38) followed by `flag.Parse()`: each field
takes the supplied value when the flag is present and the registered default
otherwise. -/
def resolveFlags (a : FlagArgs) : config where
  port := a.port.getD 2381
  upstreamHost := a.upstreamHost.getD "localhost"
  upstreamPort := a.upstreamPort.getD 2379
  upstreamServerName := a.upstreamServerName.getD "localhost"
  etcdCA := a.etcdCA.getD ""
  etcdCert := a.etcdCert.getD ""
  etcdKey := a.etcdKey.getD ""

/-- Abstraction of the filesystem at one instant: `readFile p = none` models
`os.ReadFile` failing (file unreadable), `some s` models reading content `s`. -/
structure FileSystem where
  readFile : String → Option String

/-- Abstraction of the Go crypto library behaviour (not repository code):
`pemCerts s` is the list of usable certificates `x509.CertPool.AppendCertsFromPEM`
extracts from PEM content `s` (empty ⇒ the call returns false), and
`parseKeyPair c k` is the parsed identity `tls.X509KeyPair` would produce
from certificate PEM `c` and key PEM `k` (`none` ⇒ malformed or mismatched). -/
structure CryptoModel where
  pemCerts : String → List String
  parseKeyPair : String → String → Option String

/-- `x509.CertPool`: the set of trust-root certificates, as a list. -/
structure CertPool where
  certs : List String
deriving DecidableEq, Repr

/-- `x509.NewCertPool()` — an empty pool. -/
def NewCertPool : CertPool := ⟨[]⟩

/-- `pool.AppendCertsFromPEM(pem)` (library call): appends the usable
certificates of `pem` and reports whether at least one was added. -/
def AppendCertsFromPEM (M : CryptoModel) (pool : CertPool) (pem : String) :
    CertPool × Bool :=
  let cs := M.pemCerts pem
  (⟨pool.certs ++ cs⟩, !cs.isEmpty)

/-- `tls.VersionTLS12` (Go constant 0x0303). -/
def VersionTLS12 : Nat := 771

/-- The `tls.Config` built at metrics_proxy.go lines 143–148. -/
structure TLSConfig where
  rootCAs : CertPool
  certificates : List String
  serverName : String
  minVersion : Nat
deriving DecidableEq, Repr

/-- The fields of the `http.Transport` built at lines 150–158 (timeouts in
seconds). -/
structure Transport where
  tlsClientConfig : TLSConfig
  forceAttemptHTTP2 : Bool
  maxIdleConns : Nat
  idleConnTimeoutSeconds : Nat
  tlsHandshakeTimeoutSeconds : Nat
  expectContinueTimeoutSeconds : Nat
deriving DecidableEq, Repr

/-- `tls.LoadX509KeyPair(certPath, keyPath)` (library call): reads both files
and parses them as a pair; fails if either read fails or parsing fails. -/
def loadX509KeyPair (M : CryptoModel) (fs : FileSystem)
    (certPath keyPath : String) : Option String :=
  match fs.readFile certPath, fs.readFile keyPath with
  | some certPem, some keyPem => M.parseKeyPair certPem keyPem
  | _, _ => none

/-- `buildHTTPSTransport` (metrics_proxy.go lines 137–159). -/
def buildHTTPSTransport (M : CryptoModel) (fs : FileSystem)
    (rootPool : CertPool) (certPath keyPath serverName : String) :
    Option Transport :=
  match loadX509KeyPair M fs certPath keyPath with
  | none => none
  | some cert => some
    { tlsClientConfig :=
        { rootCAs := rootPool
          certificates := [cert]
          serverName := serverName
          minVersion := VersionTLS12 }
      forceAttemptHTTP2 := true
      maxIdleConns := 100
      idleConnTimeoutSeconds := 90
      tlsHandshakeTimeoutSeconds := 10
      expectContinueTimeoutSeconds := 1 }

/-- Observable side effects of `performReload`, in program order. -/
inductive Effect where
  | logError (msg : String)
  | closeIdle (t : Transport)
  | storeTransport (t : Transport)
  | logInfo (msg : String)
deriving DecidableEq, Repr

/-- `performReload` (metrics_proxy.go lines 230–257), as a pure function of
the filesystem snapshot at fire time and the transport holder's current value
(`switcher.v`).  Returns the holder's value after the call together with the
ordered list of effects the call performs. -/
def performReload (M : CryptoModel) (c : config) (fs : FileSystem)
    (holder : Option Transport) : Option Transport × List Effect :=
  match fs.readFile c.etcdCA with
  | none => (holder, [.logError "tls-reload: read ca failed"])
  | some capem =>
    if !(AppendCertsFromPEM M NewCertPool capem).2 then
      (holder, [.logError "tls-reload: failed to add ca to cert pool"])
    else
      match buildHTTPSTransport M fs (AppendCertsFromPEM M NewCertPool capem).1
          c.etcdCert c.etcdKey c.upstreamServerName with
      | none => (holder, [.logError "tls-reload: rebuild transport failed"])
      | some newTransport =>
        match holder with
        | some old =>
          (some newTransport,
            [.closeIdle old, .storeTransport newTransport,
             .logInfo "tls-reload: TLS configuration reloaded successfully"])
        | none =>
          (some newTransport,
            [.storeTransport newTransport,
             .logInfo "tls-reload: TLS configuration reloaded successfully"])

/-- The holder's value after one `performReload` call. -/
def reloadStep (M : CryptoModel) (c : config) (fs : FileSystem)
    (holder : Option Transport) : Option Transport :=
  (performReload M c fs holder).1

/-- The reload's credential-loading pipeline in isolation (read CA, parse it
into a pool, build the transport); `performReload` succeeds exactly when this
is `some`. -/
def loadTransport (M : CryptoModel) (c : config) (fs : FileSystem) :
    Option Transport :=
  match fs.readFile c.etcdCA with
  | none => none
  | some capem =>
    if !(AppendCertsFromPEM M NewCertPool capem).2 then none
    else buildHTTPSTransport M fs (AppendCertsFromPEM M NewCertPool capem).1
      c.etcdCert c.etcdKey c.upstreamServerName

/-- Outcome of the startup path of `main`. -/
inductive MainResult where
  /-- `log.Fatal` was reached with this message: non-zero process exit. -/
  | fatal (msg : String)
  /-- The process reaches `http.ListenAndServe`: the proxy forwards to
  `scheme://host`, the holder initially contains `transport`, and
  `watcherStarted` records whether `go watchAndReloadTLS` was spawned. -/
  | running (scheme : String) (host : String) (transport : Option Transport)
      (watcherStarted : Bool)
deriving DecidableEq, Repr

/-- Whether a startup outcome is a fatal exit. -/
def MainResult.isFatal : MainResult → Bool
  | .fatal _ => true
  | .running _ _ _ _ => false

/-- `validateFlags` (lines 40–50) followed by the body of `main`
(lines 52–117) up to `http.ListenAndServe`, as a function of the parsed
configuration and the filesystem at startup. -/
def mainStartup (M : CryptoModel) (c : config) (fs : FileSystem) :
    MainResult :=
  if c.etcdCA.length = 0 then .fatal "--etcd-ca=<ca-file> is required"
  else if c.etcdCert.length = 0 then .fatal "--etcd-cert=<cert-file> is required"
  else if c.etcdKey.length = 0 then .fatal "--etcd-key=<key-file> is required"
  else
    match fs.readFile c.etcdCA with
    | none =>
      .running "http" (c.upstreamHost ++ ":" ++ toString c.port) none false
    | some capem =>
      if !(AppendCertsFromPEM M NewCertPool capem).2 then
        .fatal "error: failed to add ca to cert pool"
      else
        match buildHTTPSTransport M fs
            (AppendCertsFromPEM M NewCertPool capem).1 c.etcdCert c.etcdKey
            c.upstreamServerName with
        | none => .fatal "buildHTTPSTransport error"
        | some t =>
          .running "https" (c.upstreamHost ++ ":" ++ toString c.upstreamPort)
            (some t) true

/-- The transport-holder value after startup followed by a sequence of reload
attempts, each seeing the filesystem snapshot at its fire time.  If the
watcher was not started no reload ever runs; `none` means startup was fatal. -/
def transportAfterEvents (M : CryptoModel) (c : config) (fs0 : FileSystem)
    (later : List FileSystem) : Option (Option Transport) :=
  match mainStartup M c fs0 with
  | .fatal _ => none
  | .running _ _ t0 watcherStarted =>
    some (if watcherStarted then later.foldl (fun h fs => reloadStep M c fs h) t0
          else t0)

/-! ### Change watcher: event filtering (metrics_proxy.go lines 161–227) -/

/-- `fsnotify.Create` (bit 0 of the `Op` bitmask). -/
def fsnotifyCreate : Nat := 1

/-- `fsnotify.Write` (bit 1). -/
def fsnotifyWrite : Nat := 2

/-- `fsnotify.Remove` (bit 2). -/
def fsnotifyRemove : Nat := 4

/-- `fsnotify.Rename` (bit 3). -/
def fsnotifyRename : Nat := 8

/-- `fsnotify.Chmod` (bit 4). -/
def fsnotifyChmod : Nat := 16

/-- The five single-kind `fsnotify.Op` values. -/
def fsnotifyOps : List Nat :=
  [fsnotifyCreate, fsnotifyWrite, fsnotifyRemove, fsnotifyRename, fsnotifyChmod]

/-- An `fsnotify.Event`: a path and an `Op` bitmask. -/
structure Event where
  name : String
  op : Nat
deriving DecidableEq, Repr

/-- Split a character list at slash separators (always nonempty, like
`String.splitOn "/"`). -/
def splitSlash (cs : List Char) : List (List Char) :=
  cs.foldr
    (fun ch acc =>
      if ch = '/' then [] :: acc
      else
        match acc with
        | [] => [[ch]]
        | a :: as => (ch :: a) :: as)
    [[]]

/-- Join components with slashes (inverse of `splitSlash`). -/
def joinSlash : List (List Char) → List Char
  | [] => []
  | [a] => a
  | a :: b :: rest => a ++ '/' :: joinSlash (b :: rest)

/-- Model of `filepath.Base`: the component after the last slash.  (The Go
function additionally cleans redundant slashes; both the index construction
and the event filter apply the same function to paths, so the comparison
logic is preserved.) -/
def goBase (p : String) : String :=
  ⟨(splitSlash p.data).getLastD []⟩

/-- Model of `filepath.Dir`: everything before the last slash (`"."` when
there is no slash, `"/"` for a root-level path), matching `filepath.Dir` on
paths without redundant separators. -/
def goDir (p : String) : String :=
  match (splitSlash p.data).dropLast with
  | [] => "."
  | ds => if joinSlash ds = [] then "/" else ⟨joinSlash ds⟩

/-- The three watched credential paths (metrics_proxy.go line 171). -/
def watchTargets (c : config) : List String :=
  [c.etcdCA, c.etcdCert, c.etcdKey]

/-- The Watch Target Index `baseByDir` (lines 172–182): the tracked base
names for a directory. -/
def baseByDir (c : config) (dir : String) : List String :=
  (watchTargets c).filterMap
    (fun p => if goDir p = dir then some (goBase p) else none)

/-- Whether `dir` is a key of `baseByDir` (`m, exists := baseByDir[dir]`,
line 212). -/
def dirInIndex (c : config) (dir : String) : Bool :=
  !(baseByDir c dir).isEmpty

/-- The `switch event.Op` at lines 214–215: the `Op` value equals exactly one
of the five listed constants. -/
def isRelevantOp (op : Nat) : Bool :=
  op == fsnotifyCreate || op == fsnotifyWrite || op == fsnotifyRemove ||
    op == fsnotifyRename || op == fsnotifyChmod

/-- The event filter of the watcher loop (lines 210–219): the directory must
be a key of the index, the base name must be tracked for that directory, and
the `Op` must match the switch. -/
def eventRelevant (c : config) (e : Event) : Bool :=
  let dir := goDir e.name
  let base := goBase e.name
  dirInIndex c dir && (baseByDir c dir).contains base && isRelevantOp e.op

/-- The debounce quiet period, in milliseconds (line 198). -/
def quietPeriodMs : Nat := 250

/-- One step of the watcher loop on the pending-timer state: a relevant event
at time `now` re-arms the timer to fire at `now + quietPeriodMs`
(`scheduleReload`, lines 194–201); any other event leaves the state alone. -/
def watcherStep (c : config) (now : Nat) (e : Event) (pending : Option Nat) :
    Option Nat :=
  if eventRelevant c e then some (now + quietPeriodMs) else pending

/-! ### Debounce timer trace semantics (`scheduleReload`, lines 192–201)

`debounceRun pending ts` processes relevant-event times `ts` (ascending) with
a pending timer deadline, and returns the times at which the reload callback
fires: a pending deadline that has passed by the time of the next event has
fired; an event always re-arms the timer to its own time plus the quiet
period (`Stop` then a fresh `AfterFunc`). -/

/-- Fire times of the debounce timer over a sorted list of relevant-event
times, given the current pending deadline. -/
def debounceRun : Option Nat → List Nat → List Nat
  | none, [] => []
  | some d, [] => [d]
  | none, t :: ts => debounceRun (some (t + quietPeriodMs)) ts
  | some d, t :: ts =>
    if d ≤ t then d :: debounceRun (some (t + quietPeriodMs)) ts
    else debounceRun (some (t + quietPeriodMs)) ts

/-- The times at which reload attempts fire, for relevant events at the given
ascending times, starting with no timer pending. -/
def reloadFireTimes (ts : List Nat) : List Nat :=
  debounceRun none ts

/-- The filesystem snapshots the fired reload attempts read, when the
filesystem over time is `fsAt`: each attempt reads the files as they exist at
its own fire time (`performReload` calls `os.ReadFile` when the timer fires). -/
def reloadInputs (fsAt : Nat → FileSystem) (ts : List Nat) : List FileSystem :=
  (reloadFireTimes ts).map fsAt

/-! ### Concrete instances used by witnesses -/

/-- A crypto model under which nothing parses. -/
def trivialModel : CryptoModel :=
  ⟨fun _ => [], fun _ _ => none⟩

/-- A crypto model with one valid CA PEM and one valid cert/key pair. -/
def toyModel : CryptoModel :=
  ⟨fun s => if s = "CAPEM" then ["rootCert"] else [],
   fun c k => if c = "CERTPEM" && k = "KEYPEM" then some "identity" else none⟩

/-- A configuration with all three credential files in one directory. -/
def toyCfg : config :=
  ⟨2381, "localhost", 2379, "localhost",
   "/certs/ca.pem", "/certs/cert.pem", "/certs/key.pem"⟩

/-- A filesystem on which every read fails. -/
def emptyFS : FileSystem :=
  ⟨fun _ => none⟩

/-- A filesystem holding valid content for `toyCfg`'s three paths. -/
def goodFS : FileSystem :=
  ⟨fun p =>
    if p = "/certs/ca.pem" then some "CAPEM"
    else if p = "/certs/cert.pem" then some "CERTPEM"
    else if p = "/certs/key.pem" then some "KEYPEM"
    else none⟩

/-- The transport `buildHTTPSTransport` produces from `toyModel` and
`goodFS`. -/
def toyTransport : Transport :=
  { tlsClientConfig :=
      { rootCAs := ⟨["rootCert"]⟩
        certificates := ["identity"]
        serverName := "localhost"
        minVersion := VersionTLS12 }
    forceAttemptHTTP2 := true
    maxIdleConns := 100
    idleConnTimeoutSeconds := 90
    tlsHandshakeTimeoutSeconds := 10
    expectContinueTimeoutSeconds := 1 }

/-! ### Shared lemmas -/

/-- When the credential pipeline succeeds, `performReload` closes the old
transport's idle connections (when one is held), stores the new transport,
and logs success, in that order. -/
lemma performReload_of_ok (M : CryptoModel) (c : config) (fs : FileSystem)
    (t : Transport) (hok : loadTransport M c fs = some t)
    (holder : Option Transport) :
    performReload M c fs holder =
      (some t,
        (match holder with
          | some old => [Effect.closeIdle old]
          | none => []) ++
        [Effect.storeTransport t,
         Effect.logInfo "tls-reload: TLS configuration reloaded successfully"]) := by
  unfold loadTransport at hok
  unfold performReload
  rcases hread : fs.readFile c.etcdCA with _ | capem
  · rw [hread] at hok; simp at hok
  · rw [hread] at hok
    dsimp only at hok
    cases hb : (AppendCertsFromPEM M NewCertPool capem).2
    · rw [hb] at hok; simp at hok
    · rw [hb] at hok
      simp only [Bool.not_true, Bool.false_eq_true, if_false, ite_false] at hok
      rcases hbt : buildHTTPSTransport M fs
          (AppendCertsFromPEM M NewCertPool capem).1 c.etcdCert c.etcdKey
          c.upstreamServerName with _ | t2
      · rw [hbt] at hok; simp at hok
      · rw [hbt] at hok
        cases Option.some.inj hok
        cases holder <;> simp [hb, hbt]

/-- When the credential pipeline succeeds, the holder ends up containing the
freshly built transport, whatever it held before. -/
lemma reloadStep_of_ok (M : CryptoModel) (c : config) (fs : FileSystem)
    (t : Transport) (hok : loadTransport M c fs = some t)
    (holder : Option Transport) :
    reloadStep M c fs holder = some t := by
  unfold reloadStep
  rw [performReload_of_ok M c fs t hok holder]

/-! ### Claims -/

/-- C10: with every command-line flag omitted, the configuration takes the
defaults registered in `initFlags` — listen port 2381, upstream host
"localhost", upstream port 2379, upstream TLS server name "localhost", and
empty credential paths — and with the empty credential paths the process
refuses to start (`validateFlags` hits `log.Fatal`). -/
theorem claim_C10 :
    resolveFlags ⟨none, none, none, none, none, none, none⟩ =
      ⟨2381, "localhost", 2379, "localhost", "", "", ""⟩ ∧
    ∀ (M : CryptoModel) (fs : FileSystem),
      mainStartup M (resolveFlags ⟨none, none, none, none, none, none, none⟩)
          fs =
        .fatal "--etcd-ca=<ca-file> is required" :=
  ⟨rfl, fun _ _ => rfl⟩

/-- C5: every transport `buildHTTPSTransport` builds from a pool populated by
`AppendCertsFromPEM` on the CA content carries the trust root parsed from
that content, exactly one client identity (the loaded key pair), the
configured server name, minimum TLS version 1.2, HTTP/2 attempted, 100 max
idle connections, a 90s idle timeout, a 10s handshake timeout, and a 1s
expect-continue timeout. -/
theorem claim_C5 (M : CryptoModel) (fs : FileSystem)
    (capem certPath keyPath serverName : String) (t : Transport)
    (h : buildHTTPSTransport M fs (AppendCertsFromPEM M NewCertPool capem).1
        certPath keyPath serverName = some t) :
    t.tlsClientConfig.rootCAs.certs = M.pemCerts capem ∧
    (∃ kp, loadX509KeyPair M fs certPath keyPath = some kp ∧
      t.tlsClientConfig.certificates = [kp]) ∧
    t.tlsClientConfig.serverName = serverName ∧
    t.tlsClientConfig.minVersion = VersionTLS12 ∧
    t.forceAttemptHTTP2 = true ∧
    t.maxIdleConns = 100 ∧
    t.idleConnTimeoutSeconds = 90 ∧
    t.tlsHandshakeTimeoutSeconds = 10 ∧
    t.expectContinueTimeoutSeconds = 1 := by
  unfold buildHTTPSTransport at h
  rcases hkp : loadX509KeyPair M fs certPath keyPath with _ | kp <;>
    rw [hkp] at h
  · simp at h
  · cases Option.some.inj h
    refine ⟨?_, ⟨kp, rfl, rfl⟩, rfl, rfl, rfl, rfl, rfl, rfl, rfl⟩
    simp [AppendCertsFromPEM, NewCertPool]

/-- C5 witness: the toy model and filesystem give a successful build whose
transport is `toyTransport`, and its trust root is the parsed CA content. -/
theorem claim_C5_witness :
    (buildHTTPSTransport toyModel goodFS
        (AppendCertsFromPEM toyModel NewCertPool "CAPEM").1 "/certs/cert.pem"
        "/certs/key.pem" "localhost" = some toyTransport) ∧
    toyTransport.tlsClientConfig.rootCAs.certs = toyModel.pemCerts "CAPEM" :=
  ⟨by decide,
   (claim_C5 toyModel goodFS "CAPEM" "/certs/cert.pem" "/certs/key.pem"
     "localhost" toyTransport (by decide)).1⟩

/-- C2: on any failed reload attempt — CA unreadable, CA content with no
usable certificates, or key pair load failure — `performReload` leaves the
holder untouched and performs exactly one effect, an error log: no idle
connections are closed and no transport is stored. -/
theorem claim_C2 (M : CryptoModel) (c : config) (fs : FileSystem)
    (holder : Option Transport)
    (hfail :
      fs.readFile c.etcdCA = none ∨
      (∃ capem, fs.readFile c.etcdCA = some capem ∧ M.pemCerts capem = []) ∨
      (∃ capem, fs.readFile c.etcdCA = some capem ∧
        loadX509KeyPair M fs c.etcdCert c.etcdKey = none)) :
    ∃ msg, performReload M c fs holder = (holder, [Effect.logError msg]) := by
  unfold performReload
  rcases hfail with h | ⟨capem, hread, hpem⟩ | ⟨capem, hread, hkp⟩
  · exact ⟨"tls-reload: read ca failed", by rw [h]⟩
  · refine ⟨"tls-reload: failed to add ca to cert pool", ?_⟩
    rw [hread]
    simp [AppendCertsFromPEM, hpem]
  · rw [hread]
    cases hl : M.pemCerts capem with
    | nil =>
      exact ⟨"tls-reload: failed to add ca to cert pool",
        by simp [AppendCertsFromPEM, hl]⟩
    | cons x xs =>
      refine ⟨"tls-reload: rebuild transport failed", ?_⟩
      simp [AppendCertsFromPEM, hl, buildHTTPSTransport, hkp]

/-- C2 witness: with every file unreadable, a reload attempt leaves a held
transport in place and only logs. -/
theorem claim_C2_witness :
    (emptyFS.readFile toyCfg.etcdCA = none) ∧
    ∃ msg, performReload trivialModel toyCfg emptyFS (some toyTransport) =
      (some toyTransport, [Effect.logError msg]) :=
  ⟨rfl,
   claim_C2 trivialModel toyCfg emptyFS (some toyTransport) (Or.inl rfl)⟩

/-- C3: on a successful reload with a previously stored transport, the old
transport's idle connections are closed first, then the newly built transport
is stored (the holder afterwards contains exactly the transport built from
the just-read credential content), then success is logged. -/
theorem claim_C3 (M : CryptoModel) (c : config) (fs : FileSystem)
    (old t : Transport) (hok : loadTransport M c fs = some t) :
    performReload M c fs (some old) =
      (some t,
        [Effect.closeIdle old, Effect.storeTransport t,
         Effect.logInfo "tls-reload: TLS configuration reloaded successfully"]) := by
  have h := performReload_of_ok M c fs t hok (some old)
  simpa using h

/-- C3 witness: a concrete successful reload over a held transport. -/
theorem claim_C3_witness :
    (loadTransport toyModel toyCfg goodFS = some toyTransport) ∧
    performReload toyModel toyCfg goodFS (some toyTransport) =
      (some toyTransport,
        [Effect.closeIdle toyTransport, Effect.storeTransport toyTransport,
         Effect.logInfo "tls-reload: TLS configuration reloaded successfully"]) :=
  ⟨by decide,
   claim_C3 toyModel toyCfg goodFS toyTransport toyTransport (by decide)⟩

/-- C8: with fixed, valid credential content, performing the reload any
positive number of times yields the same transport each time — the holder
contains the one transport `loadTransport` builds from that content, with its
trust root, identity and peer name, regardless of the starting state. -/
theorem claim_C8 (M : CryptoModel) (c : config) (fs : FileSystem)
    (t : Transport) (hok : loadTransport M c fs = some t)
    (n : Nat) (h0 : Option Transport) :
    (reloadStep M c fs)^[n + 1] h0 = some t := by
  induction n generalizing h0 with
  | zero => simpa using reloadStep_of_ok M c fs t hok h0
  | succ m ih =>
    rw [Function.iterate_succ_apply]
    exact ih (reloadStep M c fs h0)

/-- C8 witness: three consecutive reloads from an empty holder land on the
toy transport. -/
theorem claim_C8_witness :
    (loadTransport toyModel toyCfg goodFS = some toyTransport) ∧
    (reloadStep toyModel toyCfg goodFS)^[3] none = some toyTransport :=
  ⟨by decide, claim_C8 toyModel toyCfg goodFS toyTransport (by decide) 2 none⟩

/-- C7: startup is fatal exactly when a required credential path is empty,
or the CA file was readable but its content yields no usable certificates, or
(the CA being readable and parseable) the cert/key pair fails to load
(malformed or mismatched); in particular an unreadable CA file alone is never
fatal. -/
theorem claim_C7 (M : CryptoModel) (c : config) (fs : FileSystem) :
    (mainStartup M c fs).isFatal = true ↔
      (c.etcdCA.length = 0 ∨ c.etcdCert.length = 0 ∨ c.etcdKey.length = 0 ∨
        ∃ capem, fs.readFile c.etcdCA = some capem ∧
          (M.pemCerts capem = [] ∨
            loadX509KeyPair M fs c.etcdCert c.etcdKey = none)) := by
  unfold mainStartup
  by_cases h1 : c.etcdCA.length = 0
  · simp [h1, MainResult.isFatal]
  · rw [if_neg h1]
    by_cases h2 : c.etcdCert.length = 0
    · simp [h1, h2, MainResult.isFatal]
    · rw [if_neg h2]
      by_cases h3 : c.etcdKey.length = 0
      · simp [h1, h2, h3, MainResult.isFatal]
      · rw [if_neg h3]
        rcases hread : fs.readFile c.etcdCA with _ | capem
        · simp [h1, h2, h3, hread, MainResult.isFatal]
        · cases hl : M.pemCerts capem with
          | nil =>
            simp [h1, h2, h3, hread, hl, AppendCertsFromPEM,
              MainResult.isFatal]
          | cons x xs =>
            rcases hkp : loadX509KeyPair M fs c.etcdCert c.etcdKey
                with _ | kp <;>
              simp [h1, h2, h3, hread, hl, hkp, AppendCertsFromPEM,
                buildHTTPSTransport, MainResult.isFatal]

/-- C4 counterexample: with the CA unreadable at startup, the process enters
Plain mode but proxies to the upstream host at the proxy's own listen port
(2381 in `toyCfg`), not at the configured upstream port (2379) as the claim
states. -/
theorem claim_C4_counterexample :
    mainStartup trivialModel toyCfg emptyFS =
      .running "http" (toyCfg.upstreamHost ++ ":" ++ toString toyCfg.port)
        none false ∧
    mainStartup trivialModel toyCfg emptyFS ≠
      .running "http"
        (toyCfg.upstreamHost ++ ":" ++ toString toyCfg.upstreamPort)
        none false := by
  constructor
  · rfl
  · decide

/-- C4 (amended): if the CA file is unreadable at startup the process enters
Plain mode for its whole lifetime — it proxies over plain HTTP to the
configured upstream host at the proxy's own listen port (not the upstream
port), the change watcher is never started, and no later filesystem state
(e.g. the CA file appearing) ever installs a transport. -/
theorem claim_C4 (M : CryptoModel) (c : config) (fs0 : FileSystem)
    (h1 : c.etcdCA.length ≠ 0) (h2 : c.etcdCert.length ≠ 0)
    (h3 : c.etcdKey.length ≠ 0) (hread : fs0.readFile c.etcdCA = none) :
    mainStartup M c fs0 =
      .running "http" (c.upstreamHost ++ ":" ++ toString c.port) none false ∧
    ∀ later : List FileSystem,
      transportAfterEvents M c fs0 later = some none := by
  have hm : mainStartup M c fs0 =
      .running "http" (c.upstreamHost ++ ":" ++ toString c.port) none false := by
    unfold mainStartup
    rw [if_neg h1, if_neg h2, if_neg h3, hread]
  refine ⟨hm, fun later => ?_⟩
  unfold transportAfterEvents
  rw [hm]
  rfl

/-- C4 witness: Plain mode at a concrete configuration; a later filesystem
with readable, valid credentials still installs no transport. -/
theorem claim_C4_witness :
    (toyCfg.etcdCA.length ≠ 0 ∧ emptyFS.readFile toyCfg.etcdCA = none) ∧
    mainStartup trivialModel toyCfg emptyFS =
      .running "http" (toyCfg.upstreamHost ++ ":" ++ toString toyCfg.port)
        none false ∧
    transportAfterEvents trivialModel toyCfg emptyFS [goodFS] = some none :=
  ⟨⟨by decide, rfl⟩,
   (claim_C4 trivialModel toyCfg emptyFS (by decide) (by decide) (by decide)
     rfl).1,
   (claim_C4 trivialModel toyCfg emptyFS (by decide) (by decide) (by decide)
     rfl).2 [goodFS]⟩

/-- With a timer pending for `t0 + quietPeriodMs` and every remaining event
arriving within the quiet period of its predecessor, the timer is re-armed at
every event and fires exactly once, at the last event's time plus the quiet
period. -/
lemma debounceRun_burst (t0 : Nat) (rest : List Nat)
    (h : List.Chain' (fun a b => a ≤ b ∧ b < a + quietPeriodMs)
      (t0 :: rest)) :
    debounceRun (some (t0 + quietPeriodMs)) rest =
      [(t0 :: rest).getLast (List.cons_ne_nil t0 rest) + quietPeriodMs] := by
  induction rest generalizing t0 with
  | nil => rfl
  | cons t ts ih =>
    have h1 : t0 ≤ t ∧ t < t0 + quietPeriodMs := (List.chain'_cons.mp h).1
    have h2 : List.Chain' (fun a b => a ≤ b ∧ b < a + quietPeriodMs)
        (t :: ts) := (List.chain'_cons.mp h).2
    have hlt : ¬ (t0 + quietPeriodMs ≤ t) := by omega
    have step : debounceRun (some (t0 + quietPeriodMs)) (t :: ts) =
        if t0 + quietPeriodMs ≤ t then
          (t0 + quietPeriodMs) ::
            debounceRun (some (t + quietPeriodMs)) ts
        else debounceRun (some (t + quietPeriodMs)) ts := rfl
    rw [step, if_neg hlt, ih t h2]
    simp [List.getLast_cons]

/-- C1: for N ≥ 1 relevant events, each arriving within the 250ms quiet
period of its predecessor, exactly one reload attempt fires — at the last
event's time plus the quiet period — and it reads the credential files as
they exist at that fire time, not as they were at the first event. -/
theorem claim_C1 (fsAt : Nat → FileSystem) (t0 : Nat) (rest : List Nat)
    (hchain : List.Chain' (fun a b => a ≤ b ∧ b < a + quietPeriodMs)
      (t0 :: rest)) :
    reloadFireTimes (t0 :: rest) =
      [(t0 :: rest).getLast (List.cons_ne_nil t0 rest) + quietPeriodMs] ∧
    reloadInputs fsAt (t0 :: rest) =
      [fsAt ((t0 :: rest).getLast (List.cons_ne_nil t0 rest) +
        quietPeriodMs)] := by
  have hf : reloadFireTimes (t0 :: rest) =
      [(t0 :: rest).getLast (List.cons_ne_nil t0 rest) + quietPeriodMs] := by
    unfold reloadFireTimes
    have step : debounceRun none (t0 :: rest) =
        debounceRun (some (t0 + quietPeriodMs)) rest := rfl
    rw [step, debounceRun_burst t0 rest hchain]
  exact ⟨hf, by unfold reloadInputs; rw [hf]; rfl⟩

/-- C1 witness: three events at 0ms, 100ms and 200ms yield a single reload
firing at 450ms, reading the filesystem of that instant. -/
theorem claim_C1_witness :
    (List.Chain' (fun a b => a ≤ b ∧ b < a + quietPeriodMs) [0, 100, 200]) ∧
    reloadFireTimes [0, 100, 200] = [450] ∧
    reloadInputs (fun _ => goodFS) [0, 100, 200] = [goodFS] := by
  have hc : List.Chain' (fun a b => a ≤ b ∧ b < a + quietPeriodMs)
      [0, 100, 200] := by
    norm_num [List.chain'_cons, quietPeriodMs]
  refine ⟨hc, ?_, ?_⟩
  · have h1 := (claim_C1 (fun _ => goodFS) 0 [100, 200] hc).1
    rw [h1]; decide
  · have h2 := (claim_C1 (fun _ => goodFS) 0 [100, 200] hc).2
    rw [h2]

/-- C6: an event re-arms the debounce timer iff its directory is a key of
the Watch Target Index, its base name is one of the tracked names for that
directory, and its `Op` is exactly one of creation, write, removal, rename,
or permission-metadata change; every other event leaves the pending-timer
state untouched. -/
theorem claim_C6 (c : config) (e : Event) (now : Nat) (pending : Option Nat) :
    (eventRelevant c e = true ↔
      (dirInIndex c (goDir e.name) = true ∧
        goBase e.name ∈ baseByDir c (goDir e.name) ∧
        (e.op = fsnotifyCreate ∨ e.op = fsnotifyWrite ∨
          e.op = fsnotifyRemove ∨ e.op = fsnotifyRename ∨
          e.op = fsnotifyChmod))) ∧
    (eventRelevant c e = true →
      watcherStep c now e pending = some (now + quietPeriodMs)) ∧
    (eventRelevant c e = false → watcherStep c now e pending = pending) := by
  refine ⟨?_, fun h => by simp [watcherStep, h], fun h => by simp [watcherStep, h]⟩
  unfold eventRelevant isRelevantOp
  simp [Bool.and_eq_true, Bool.or_eq_true, beq_iff_eq, List.contains,
    List.elem_iff, and_assoc, or_assoc]

/-- C6 witness: a write to the tracked CA file re-arms the timer; a write to
an untracked file in the same directory does not. -/
theorem claim_C6_witness :
    (eventRelevant toyCfg ⟨"/certs/ca.pem", 2⟩ = true ∧
      eventRelevant toyCfg ⟨"/certs/other.pem", 2⟩ = false) ∧
    watcherStep toyCfg 17 ⟨"/certs/ca.pem", 2⟩ none = some (17 + quietPeriodMs) ∧
    watcherStep toyCfg 17 ⟨"/certs/other.pem", 2⟩ (some 3) = some 3 :=
  ⟨⟨by decide, by decide⟩,
   (claim_C6 toyCfg ⟨"/certs/ca.pem", 2⟩ 17 none).2.1 (by decide),
   (claim_C6 toyCfg ⟨"/certs/other.pem", 2⟩ 17 (some 3)).2.2 (by decide)⟩

/-- The `Op` switch matches a value iff it is one of the five single-kind
constants. -/
lemma isRelevantOp_iff_mem (m : Nat) :
    isRelevantOp m = true ↔ m ∈ fsnotifyOps := by
  simp [isRelevantOp, fsnotifyOps, List.mem_cons, Bool.or_eq_true,
    beq_iff_eq, or_assoc]

/-- Every member of a list is absorbed by the bitwise OR of the list. -/
lemma lor_foldr_absorb (ops : List Nat) (x : Nat) (hx : x ∈ ops) :
    x ||| ops.foldr (fun a b => a ||| b) 0 =
      ops.foldr (fun a b => a ||| b) 0 := by
  induction ops with
  | nil => cases hx
  | cons y ys ih =>
    rcases List.mem_cons.mp hx with rfl | hx'
    · rw [List.foldr_cons, ← Nat.lor_assoc, Nat.or_self]
    · rw [List.foldr_cons, ← Nat.lor_assoc, Nat.lor_comm x y, Nat.lor_assoc,
        ih hx']

/-- No value absorbs two distinct single-kind constants while itself being a
single-kind constant: a mask containing two distinct kind bits matches no
case of the switch. -/
lemma single_kind_absorbs_at_most_one :
    ∀ m ∈ fsnotifyOps, ∀ a ∈ fsnotifyOps, ∀ b ∈ fsnotifyOps,
      a ≠ b → ¬(a ||| m = m ∧ b ||| m = m) := by
  decide

/-- C9: an event on a tracked file whose `Op` bitmask combines more than one
of the five relevant kinds — the OR of any two or more distinct single-kind
constants, e.g. Create|Write or Create|Write|Remove — is not matched by the
exact-equality switch, so it does not re-arm the debounce timer. -/
theorem claim_C9 (c : config) (e : Event) (now : Nat) (pending : Option Nat)
    (_htracked : goBase e.name ∈ baseByDir c (goDir e.name))
    (ops : List Nat) (hsub : ∀ x ∈ ops, x ∈ fsnotifyOps) (hnd : ops.Nodup)
    (hlen : 2 ≤ ops.length)
    (hop : e.op = ops.foldr (fun a b => a ||| b) 0) :
    eventRelevant c e = false ∧ watcherStep c now e pending = pending := by
  rcases ops with _ | ⟨a, tail⟩
  · simp at hlen
  rcases tail with _ | ⟨b, rest⟩
  · simp at hlen
  have hane : a ≠ b := by
    intro h
    subst h
    exact (List.nodup_cons.mp hnd).1 (List.mem_cons_self a rest)
  have ha : a ∈ fsnotifyOps := hsub a (by simp)
  have hb : b ∈ fsnotifyOps := hsub b (by simp)
  have hma : a ||| (a :: b :: rest).foldr (fun a b => a ||| b) 0 =
      (a :: b :: rest).foldr (fun a b => a ||| b) 0 :=
    lor_foldr_absorb _ a (by simp)
  have hmb : b ||| (a :: b :: rest).foldr (fun a b => a ||| b) 0 =
      (a :: b :: rest).foldr (fun a b => a ||| b) 0 :=
    lor_foldr_absorb _ b (by simp)
  have hrel : isRelevantOp ((a :: b :: rest).foldr (fun a b => a ||| b) 0) =
      false := by
    cases hio : isRelevantOp ((a :: b :: rest).foldr (fun a b => a ||| b) 0)
    · rfl
    · exact absurd ⟨hma, hmb⟩
        (single_kind_absorbs_at_most_one _
          ((isRelevantOp_iff_mem _).mp hio) a ha b hb hane)
  have he : eventRelevant c e = false := by
    simp only [List.foldr_cons] at hrel
    simp [eventRelevant, hop, hrel]
  exact ⟨he, by simp [watcherStep, he]⟩

/-- C9 witness: a Create|Write|Remove (bitmask 7) event on the tracked CA
file is dropped and the pending timer survives. -/
theorem claim_C9_witness :
    (goBase "/certs/ca.pem" ∈ baseByDir toyCfg (goDir "/certs/ca.pem") ∧
      (7 : Nat) = [1, 2, 4].foldr (fun a b => a ||| b) 0) ∧
    eventRelevant toyCfg ⟨"/certs/ca.pem", 7⟩ = false ∧
    watcherStep toyCfg 0 ⟨"/certs/ca.pem", 7⟩ (some 9) = some 9 :=
  ⟨⟨by decide, by decide⟩,
   (claim_C9 toyCfg ⟨"/certs/ca.pem", 7⟩ 0 (some 9) (by decide) [1, 2, 4]
     (by decide) (by decide) (by decide) (by decide)).1,
   (claim_C9 toyCfg ⟨"/certs/ca.pem", 7⟩ 0 (some 9) (by decide) [1, 2, 4]
     (by decide) (by decide) (by decide) (by decide)).2⟩

end EtcdMetricsProxy
